import Mathlib

/-!
Shallow embedding of the AudioLabStudio multi-stem render pipeline.

Sources embedded:
- `src/server/services/dspRenderer.ts`, `renderMix` (filter-graph
  construction, ffmpeg argument assembly, subprocess close handler).
- `src/unnamed/part_006`, `AudioProcessor.analyzeAudio` (ffprobe close
  handler: exit-code check, JSON parse, audio-stream lookup).

JS `number` values (gain, pan) are modelled as `ℚ`; the JS number-to-string
rendering used inside template literals is abstracted by `numStr` (no claim
depends on the digit rendering, only on graph structure and determinism).
-/

namespace AudioLabStudio

/-- A stem as consumed by `renderMix` (`RenderOptions.stems` element,
dspRenderer.ts lines 8-13): file path, volume, pan, optional effects list. -/
structure Stem where
  filePath : String
  volume : ℚ
  pan : ℚ
  effects : List String := []
deriving DecidableEq

/-- `RenderOptions.settings` (dspRenderer.ts lines 15-19). -/
structure RenderSettings where
  sampleRate : ℕ
  bitDepth : ℕ
  format : String
deriving DecidableEq

/-- Rendering of a rational in the graph text; stands in for JS
number-to-string conversion inside template literals. -/
def numStr (q : ℚ) : String :=
  if q.den = 1 then toString q.num else toString q.num ++ "/" ++ toString q.den

/-- dspRenderer.ts line 50: `const leftGain = pan <= 0 ? 1.0 : 1.0 - pan`. -/
def leftGain (p : ℚ) : ℚ := if p ≤ 0 then 1 else 1 - p

/-- dspRenderer.ts line 51: `const rightGain = pan >= 0 ? 1.0 : 1.0 + pan`. -/
def rightGain (p : ℚ) : ℚ := if 0 ≤ p then 1 else 1 + p

/-- dspRenderer.ts line 44: `const volume = stem.volume || 1.0` — a falsy
(zero) volume is replaced by unity. -/
def effVolume (v : ℚ) : ℚ := if v = 0 then 1 else v

/-- dspRenderer.ts line 45: `const pan = stem.pan || 0.0` — a falsy (zero)
pan stays zero (identity on ℚ). -/
def effPan (p : ℚ) : ℚ := if p = 0 then 0 else p

/-- dspRenderer.ts lines 49-53: the pan node appended to a stem's chain when
its pan is non-zero, empty otherwise. -/
def panSegment (p : ℚ) : String :=
  if p ≠ 0 then
    ",pan=stereo|FL=" ++ numStr (leftGain p) ++ "*c0|FR=" ++ numStr (rightGain p) ++ "*c1"
  else ""

/-- The effective left-channel gain the graph applies at pan `p`: when the
(effective) pan is zero, lines 49-53 omit the pan node, so the channel
passes at unity; otherwise the pan node applies `leftGain p`. -/
def effLeftGain (p : ℚ) : ℚ := if effPan p = 0 then 1 else leftGain (effPan p)

/-- The effective right-channel gain the graph applies at pan `p`
(counterpart of `effLeftGain`). -/
def effRightGain (p : ℚ) : ℚ := if effPan p = 0 then 1 else rightGain (effPan p)

/-- dspRenderer.ts lines 43-55: the per-stem filter chain
`[i:a]volume=<v>(,pan=...)?[ai]`. The `effects` field of the stem is not
consulted anywhere in `renderMix`. -/
def stemFilter (i : ℕ) (s : Stem) : String :=
  "[" ++ toString i ++ ":a]volume=" ++ numStr (effVolume s.volume)
    ++ panSegment (effPan s.pan)
    ++ "[a" ++ toString i ++ "]"

/-- dspRenderer.ts line 57: the label `[ai]` pushed for stem `i`. -/
def audioLabel (i : ℕ) : String := "[a" ++ toString i ++ "]"

/-- The `stems.forEach` accumulation of `filterComplex` (lines 43-58),
starting at stem index `i`. -/
def stemChainsAux : ℕ → List Stem → String
  | _, [] => ""
  | i, s :: rest => stemFilter i s ++ ";" ++ stemChainsAux (i + 1) rest

/-- The per-stem chain portion of `filterComplex` (lines 40-58). -/
def stemChains (stems : List Stem) : String := stemChainsAux 0 stems

/-- The `audioLabels` array accumulated by the forEach loop (lines 41, 57). -/
def audioLabels (stems : List Stem) : List String :=
  (List.range stems.length).map audioLabel

/-- dspRenderer.ts lines 40-65: the complete `filterComplex` string. With
more than one label all streams feed one `amix` node with
`duration=longest`; otherwise the graph ends in `[a0]acopy[out]`. -/
def buildFilterComplex (stems : List Stem) : String :=
  let labels := audioLabels stems
  if labels.length > 1 then
    stemChains stems ++ String.join labels
      ++ "amix=inputs=" ++ toString labels.length ++ ":duration=longest[out]"
  else
    stemChains stems ++ "[a0]acopy[out]"

/-- dspRenderer.ts lines 72-78: container-dependent flags. -/
def formatFlags (st : RenderSettings) : List String :=
  if st.format = "wav" then
    ["-f", "wav", "-acodec", "pcm_s" ++ toString st.bitDepth ++ "le"]
  else if st.format = "mp3" then
    ["-f", "mp3", "-b:a", "320k"]
  else []

/-- dspRenderer.ts lines 32-80: the full ffmpeg argument list, in the order
the code pushes it: `-y` first, then the `-i` inputs, the filter graph, the
map, the sample rate, the format flags, and finally the output path. -/
def buildArgs (stems : List Stem) (outputPath : String) (st : RenderSettings) : List String :=
  ["-y"]
    ++ stems.flatMap (fun s => ["-i", s.filePath])
    ++ ["-filter_complex", buildFilterComplex stems]
    ++ ["-map", "[out]"]
    ++ ["-ar", toString st.sampleRate]
    ++ formatFlags st
    ++ [outputPath]

/-- Outcome of the promise in `renderMix` (dspRenderer.ts lines 84-107):
`resolve(outputPath)` or `reject(new Error(message))`. -/
inductive RenderResult where
  | success (outputPath : String)
  | failure (message : String)
deriving DecidableEq

/-- dspRenderer.ts lines 87-91: `stderr += data.toString()` over the stream
of stderr chunks — accumulation is plain concatenation. -/
def accumulateStderr (chunks : List String) : String := String.join chunks

/-- dspRenderer.ts lines 93-101: the `close` handler. `outputFileExists`
models whether the output file is on disk when the close event fires; the
source handler never consults the filesystem, so the parameter is unused. -/
def renderOnClose (outputPath : String) (outputFileExists : Bool)
    (code : ℤ) (stderr : String) : RenderResult :=
  if code = 0 then
    .success outputPath
  else
    .failure ("FFmpeg failed with code " ++ toString code ++ ": " ++ stderr)

/-! ### AudioProcessor.analyzeAudio (src/unnamed/part_006, lines 29-84)

The ffprobe JSON document is modelled structurally: `none` for `parsed`
covers both invalid JSON and JSON without the expected shape (in the source
either `JSON.parse` or the `data.streams.find` access throws, and the
`catch` rejects with the parse-failure error). Field defaults mirror the
source's `|| fallback` expressions; string-to-number parsing of the JSON
fields is abstracted. -/

/-- One entry of the probe output's `streams` array. -/
structure ProbeStream where
  codec_type : String
  sample_rate : Option ℕ := none
  bits_per_sample : Option ℕ := none
  channels : Option ℕ := none
  codec_name : Option String := none
deriving DecidableEq

/-- The probe output's `format` object. -/
structure ProbeFormat where
  duration : Option ℚ := none
  format_name : Option String := none
deriving DecidableEq

/-- A successfully parsed, well-shaped probe document. -/
structure ProbeData where
  format : ProbeFormat := {}
  streams : List ProbeStream := []
deriving DecidableEq

/-- part_006 lines 7-15: the metadata record resolved by `analyzeAudio`. -/
structure AudioMetadata where
  duration : ℚ
  sampleRate : ℕ
  bitDepth : ℕ
  channels : ℕ
  format : String
  codec : Option String
  fileSize : ℕ
deriving DecidableEq

/-- Outcome of `analyzeAudio`'s close handler: the resolve and the three
distinct reject sites of part_006 lines 51-82. -/
inductive AnalyzeResult where
  | ok (m : AudioMetadata)
  | probeFailure (stderr : String)
  | noAudioStream
  | parseFailure
deriving DecidableEq

/-- part_006 line 60: `data.streams.find(s => s.codec_type === 'audio')`. -/
def findAudioStream (d : ProbeData) : Option ProbeStream :=
  d.streams.find? (fun s => s.codec_type == "audio")

/-- part_006 lines 51-82: the ffprobe `close` handler. `fileSize` is the
`statSync(filePath).size` of line 67. -/
def analyzeOnClose (fileSize : ℕ) (code : ℤ) (parsed : Option ProbeData)
    (stderr : String) : AnalyzeResult :=
  if code ≠ 0 then
    .probeFailure stderr
  else
    match parsed with
    | none => .parseFailure
    | some d =>
      match findAudioStream d with
      | none => .noAudioStream
      | some a =>
        .ok { duration := d.format.duration.getD 0
              sampleRate := a.sample_rate.getD 44100
              bitDepth := a.bits_per_sample.getD 16
              channels := a.channels.getD 2
              format := d.format.format_name.getD "unknown"
              codec := a.codec_name
              fileSize := fileSize }

/-- The spec's error taxonomy groups the no-audio-stream reject and the
parse reject of `analyzeAudio` under the kind `MetadataParseFailure`. -/
def isMetadataParseFailure : AnalyzeResult → Bool
  | .noAudioStream => true
  | .parseFailure => true
  | _ => false

/-- Modelled from the spec: §4.3 / §6 prescribe the argument order
`-i <stem1> ... -filter_complex <graph> -map [out] -ar <rate>
[-acodec pcm_s<bitDepth>le | -b:a 320k] -y <outputPath>` — stem inputs
first, the overwrite flag adjacent to the destination path. Used only to
compare with the order the code actually assembles. -/
def specOrderedArgs (stems : List Stem) (outputPath : String)
    (st : RenderSettings) : List String :=
  stems.flatMap (fun s => ["-i", s.filePath])
    ++ ["-filter_complex", buildFilterComplex stems]
    ++ ["-map", "[out]"]
    ++ ["-ar", toString st.sampleRate]
    ++ (if st.format = "wav" then ["-acodec", "pcm_s" ++ toString st.bitDepth ++ "le"]
        else if st.format = "mp3" then ["-b:a", "320k"]
        else [])
    ++ ["-y", outputPath]

/-! ### Helper lemmas (shared) -/

lemma effPan_eq (p : ℚ) : effPan p = p := by
  unfold effPan; split <;> simp_all

lemma string_append_empty (s : String) : s ++ "" = s := by
  apply String.ext
  simp [String.data_append]

lemma numStr_one : numStr 1 = "1" := by decide

/-! ### Claims -/

/-- Claim C1: for every stem with pan `p ∈ [-1, 1]`, the filter graph applies
the piecewise linear pan law: the left-channel gain is `1.0` if `p ≤ 0` and
`1.0 - p` otherwise; the right-channel gain is `1.0` if `p ≥ 0` and
`1.0 + p` otherwise; in particular both gains are `1.0` at `p = 0`, the
left gain is `0.0` and the right gain `1.0` at `p = 1`, and the right gain
is `0.0` and the left gain `1.0` at `p = -1`; when `p ≠ 0` the pan node in
the graph text carries exactly these two gains. -/
theorem C1_pan_law (p : ℚ) (h1 : -1 ≤ p) (h2 : p ≤ 1) :
    (effLeftGain p = if p ≤ 0 then 1 else 1 - p) ∧
    (effRightGain p = if 0 ≤ p then 1 else 1 + p) ∧
    effLeftGain 0 = 1 ∧ effRightGain 0 = 1 ∧
    effLeftGain 1 = 0 ∧ effRightGain 1 = 1 ∧
    effLeftGain (-1) = 1 ∧ effRightGain (-1) = 0 ∧
    (p ≠ 0 → panSegment (effPan p) =
      ",pan=stereo|FL=" ++ numStr (leftGain p) ++ "*c0|FR=" ++ numStr (rightGain p) ++ "*c1") := by
  refine ⟨?_, ?_,
    by norm_num [effLeftGain, effPan, leftGain],
    by norm_num [effRightGain, effPan, rightGain],
    by norm_num [effLeftGain, effPan, leftGain],
    by norm_num [effRightGain, effPan, rightGain],
    by norm_num [effLeftGain, effPan, leftGain],
    by norm_num [effRightGain, effPan, rightGain], ?_⟩
  · rw [effLeftGain, effPan_eq, leftGain]
    by_cases h : p = 0
    · subst h; norm_num
    · simp [h]
  · rw [effRightGain, effPan_eq, rightGain]
    by_cases h : p = 0
    · subst h; norm_num
    · simp [h]
  · intro hp
    rw [effPan_eq, panSegment, if_pos hp]

/-- Witness for C1 at `p = 1/2`. -/
theorem C1_pan_law_witness :
    (-1 ≤ (1/2 : ℚ)) ∧ ((1/2 : ℚ) ≤ 1) ∧
    ((effLeftGain (1/2) = if (1/2 : ℚ) ≤ 0 then 1 else 1 - 1/2) ∧
     (effRightGain (1/2) = if (0 : ℚ) ≤ 1/2 then 1 else 1 + 1/2) ∧
     effLeftGain 0 = 1 ∧ effRightGain 0 = 1 ∧
     effLeftGain 1 = 0 ∧ effRightGain 1 = 1 ∧
     effLeftGain (-1) = 1 ∧ effRightGain (-1) = 0 ∧
     ((1/2 : ℚ) ≠ 0 → panSegment (effPan (1/2)) =
       ",pan=stereo|FL=" ++ numStr (leftGain (1/2)) ++ "*c0|FR=" ++ numStr (rightGain (1/2)) ++ "*c1")) :=
  ⟨by norm_num, by norm_num, C1_pan_law (1/2) (by norm_num) (by norm_num)⟩

/-- Counterexample to claim C2: on the empty stem list the code performs no
validation at all — it returns the degenerate graph `[a0]acopy[out]`
(referencing a label no stem produces) and assembles the full ffmpeg
argument list, which is then handed to `spawn`; no `EmptyStemListError`
exists anywhere in the code. -/
theorem C2_counterexample :
    buildFilterComplex [] = "[a0]acopy[out]" ∧
    buildArgs [] "/downloads/mix.wav" ⟨44100, 16, "wav"⟩ =
      ["-y", "-filter_complex", "[a0]acopy[out]", "-map", "[out]", "-ar", "44100",
       "-f", "wav", "-acodec", "pcm_s16le", "/downloads/mix.wav"] := by
  constructor
  · rfl
  · decide

/-- Claim C2 as amended: for the empty stem list, `renderMix` does not fail
before spawning: it builds the degenerate graph `[a0]acopy[out]` and
assembles the subprocess argument list around it for any output path and
settings; the failure can only surface later as the engine's own error. -/
theorem C2_amended (outputPath : String) (st : RenderSettings) :
    buildFilterComplex [] = "[a0]acopy[out]" ∧
    buildArgs [] outputPath st =
      ["-y", "-filter_complex", "[a0]acopy[out]", "-map", "[out]",
       "-ar", toString st.sampleRate] ++ formatFlags st ++ [outputPath] := by
  exact ⟨rfl, rfl⟩

/-- Counterexample to claim C3: a stem list carrying the unsupported effect
kind `"sidechain"` does not fail — `renderMix` never reads the `effects`
field, so the build succeeds and yields the same graph text as a stem with
no effects; there is no `UnsupportedEffectError` in the code. -/
theorem C3_counterexample :
    buildFilterComplex [⟨"/uploads/kick.wav", 1, 0, ["sidechain"]⟩] =
      "[0:a]volume=1[a0];[a0]acopy[out]" ∧
    buildFilterComplex [⟨"/uploads/kick.wav", 1, 0, ["sidechain"]⟩] =
      buildFilterComplex [⟨"/uploads/kick.wav", 1, 0, []⟩] := by
  constructor <;> decide

/-- Claim C3 as amended: effect lists are ignored wholesale by the graph
builder — replacing every stem's `effects` field by anything at all leaves
the built graph byte-identical, so unknown effect kinds are silently
ignored rather than rejected. -/
theorem C3_amended (stems : List Stem) (f : Stem → List String) :
    buildFilterComplex (stems.map fun s => { s with effects := f s }) =
      buildFilterComplex stems := by
  have hchains : ∀ i l, stemChainsAux i (l.map fun s => { s with effects := f s })
      = stemChainsAux i l := by
    intro i l
    induction l generalizing i with
    | nil => rfl
    | cons s rest ih => simp [stemChainsAux, ih, stemFilter]
  simp [buildFilterComplex, audioLabels, stemChains, hchains]

/-- Counterexample to claim C4: the close handler resolves
`Success{outputPath}` on exit code 0 even when the output file does not
exist on disk (`outputFileExists = false`) — the code performs no
existence check and has no `IntegrityFailure` outcome. -/
theorem C4_counterexample :
    renderOnClose "/downloads/mix.wav" false 0 "" =
      RenderResult.success "/downloads/mix.wav" := by
  decide

/-- Claim C4 as amended: when the render subprocess exits with code 0 the
handler resolves `Success{outputPath}` unconditionally, without verifying
that the output file exists; there is no integrity check and no
`IntegrityFailure` result. -/
theorem C4_amended (outputPath : String) (outputFileExists : Bool) (code : ℤ)
    (stderr : String) (h : code = 0) :
    renderOnClose outputPath outputFileExists code stderr =
      RenderResult.success outputPath := by
  simp [renderOnClose, h]

/-- Witness for C4_amended at exit code 0. -/
theorem C4_amended_witness :
    ((0 : ℤ) = 0) ∧
    renderOnClose "/downloads/mix.wav" true 0 "size=0kB" =
      RenderResult.success "/downloads/mix.wav" :=
  ⟨rfl, C4_amended "/downloads/mix.wav" true 0 "size=0kB" rfl⟩

/-- Claim C5: when the render subprocess exits with a non-zero code the
promise is rejected with an engine-failure message whose diagnostic text
embeds, verbatim as a suffix, the concatenation of all stderr chunks the
handler accumulated. -/
theorem C5_engine_failure (outputPath : String) (outputFileExists : Bool)
    (code : ℤ) (chunks : List String) (h : code ≠ 0) :
    renderOnClose outputPath outputFileExists code (accumulateStderr chunks) =
      RenderResult.failure
        ("FFmpeg failed with code " ++ toString code ++ ": " ++ String.join chunks) ∧
    ∃ p, ("FFmpeg failed with code " ++ toString code ++ ": " ++ String.join chunks) =
      p ++ String.join chunks := by
  refine ⟨by simp [renderOnClose, accumulateStderr, h],
    ⟨"FFmpeg failed with code " ++ toString code ++ ": ", rfl⟩⟩

/-- Witness for C5 at exit code 1 with two stderr chunks. -/
theorem C5_engine_failure_witness :
    ((1 : ℤ) ≠ 0) ∧
    (renderOnClose "/downloads/mix.wav" false 1
        (accumulateStderr ["Error: ", "invalid filter"]) =
      RenderResult.failure
        ("FFmpeg failed with code " ++ toString (1 : ℤ) ++ ": "
          ++ String.join ["Error: ", "invalid filter"]) ∧
     ∃ p, ("FFmpeg failed with code " ++ toString (1 : ℤ) ++ ": "
          ++ String.join ["Error: ", "invalid filter"]) =
        p ++ String.join ["Error: ", "invalid filter"]) :=
  ⟨by decide, C5_engine_failure "/downloads/mix.wav" false 1
    ["Error: ", "invalid filter"] (by decide)⟩

/-- Claim C6: a single-stem job wires the output label to the stem's
processed stream through the trivial identity copy `[a0]acopy[out]` — no
summing node is introduced; a job with two or more stems feeds all labeled
streams into exactly one `amix` summing node configured with
`duration=longest` routed to the single `[out]` label. -/
theorem C6_mix_stage (s : Stem) (stems : List Stem) (h : 2 ≤ stems.length) :
    buildFilterComplex [s] = stemFilter 0 s ++ ";" ++ "[a0]acopy[out]" ∧
    buildFilterComplex stems =
      stemChains stems ++ String.join (audioLabels stems)
        ++ "amix=inputs=" ++ toString stems.length ++ ":duration=longest[out]" := by
  constructor
  · simp [buildFilterComplex, audioLabels, stemChains, stemChainsAux,
      string_append_empty, String.append_assoc]
  · rw [buildFilterComplex]
    have hl : (audioLabels stems).length = stems.length := by
      simp [audioLabels]
    rw [hl, if_pos (by omega)]

/-- Witness for C6 with a two-stem list. -/
theorem C6_mix_stage_witness :
    (2 ≤ ([⟨"/uploads/a.wav", 1, 0, []⟩, ⟨"/uploads/b.wav", 1, 0, []⟩] : List Stem).length) ∧
    (buildFilterComplex [⟨"/uploads/vox.wav", 1, 0, []⟩] =
      stemFilter 0 ⟨"/uploads/vox.wav", 1, 0, []⟩ ++ ";" ++ "[a0]acopy[out]" ∧
     buildFilterComplex [⟨"/uploads/a.wav", 1, 0, []⟩, ⟨"/uploads/b.wav", 1, 0, []⟩] =
      stemChains [⟨"/uploads/a.wav", 1, 0, []⟩, ⟨"/uploads/b.wav", 1, 0, []⟩]
        ++ String.join (audioLabels [⟨"/uploads/a.wav", 1, 0, []⟩, ⟨"/uploads/b.wav", 1, 0, []⟩])
        ++ "amix=inputs="
        ++ toString ([⟨"/uploads/a.wav", 1, 0, []⟩, ⟨"/uploads/b.wav", 1, 0, []⟩] : List Stem).length
        ++ ":duration=longest[out]") :=
  ⟨by decide, C6_mix_stage ⟨"/uploads/vox.wav", 1, 0, []⟩ _ (by decide)⟩

/-- Claim C7: filter-graph building is deterministic — two calls on
identical stem lists (same file paths, gains, pans, effect lists in the
same order) produce byte-identical graph text. In this pure embedding the
builder is a function of its input and nothing else. -/
theorem C7_deterministic (s1 s2 : List Stem) (h : s1 = s2) :
    buildFilterComplex s1 = buildFilterComplex s2 := by
  rw [h]

/-- Witness for C7 on a concrete two-stem list. -/
theorem C7_deterministic_witness :
    (([⟨"/uploads/a.wav", 1, 0, []⟩, ⟨"/uploads/b.wav", 1, 0, []⟩] : List Stem) =
      [⟨"/uploads/a.wav", 1, 0, []⟩, ⟨"/uploads/b.wav", 1, 0, []⟩]) ∧
    buildFilterComplex [⟨"/uploads/a.wav", 1, 0, []⟩, ⟨"/uploads/b.wav", 1, 0, []⟩] =
      buildFilterComplex [⟨"/uploads/a.wav", 1, 0, []⟩, ⟨"/uploads/b.wav", 1, 0, []⟩] :=
  ⟨rfl, C7_deterministic _ _ rfl⟩

/-- Counterexample to claim C8: on a concrete one-stem wav job the argument
list the code assembles differs from the order the claim prescribes — the
very first argument is the overwrite flag `-y`, not the first stem input,
and `-y` is not placed next to the destination path. -/
theorem C8_counterexample :
    buildArgs [⟨"/uploads/kick.wav", 1, 0, []⟩] "/downloads/mix.wav" ⟨44100, 16, "wav"⟩ ≠
      specOrderedArgs [⟨"/uploads/kick.wav", 1, 0, []⟩] "/downloads/mix.wav" ⟨44100, 16, "wav"⟩ ∧
    (buildArgs [⟨"/uploads/kick.wav", 1, 0, []⟩] "/downloads/mix.wav" ⟨44100, 16, "wav"⟩).head? =
      some "-y" := by
  constructor <;> decide

/-- Claim C8 as amended: the argument list has the fixed order: the
unconditional overwrite flag `-y` first, then all stem input files as
`-i` pairs in stem order, then the filter-graph description, then the
mapping of the graph's `[out]` label, then the sample rate, then the
container flags (`wav` → `-f wav` plus a raw PCM codec named after the bit
depth, `mp3` → `-f mp3` plus a fixed 320k bitrate, other formats no
flags), and the destination path last. -/
theorem C8_amended (stems : List Stem) (outputPath : String) (st : RenderSettings) :
    buildArgs stems outputPath st =
      "-y" :: (stems.flatMap (fun s => ["-i", s.filePath])
        ++ "-filter_complex" :: buildFilterComplex stems
        :: "-map" :: "[out]" :: "-ar" :: toString st.sampleRate
        :: (formatFlags st ++ [outputPath])) ∧
    (buildArgs stems outputPath st).head? = some "-y" ∧
    (buildArgs stems outputPath st).getLast? = some outputPath := by
  refine ⟨by simp [buildArgs], by simp [buildArgs], ?_⟩
  have : buildArgs stems outputPath st =
      (["-y"] ++ stems.flatMap (fun s => ["-i", s.filePath])
        ++ ["-filter_complex", buildFilterComplex stems] ++ ["-map", "[out]"]
        ++ ["-ar", toString st.sampleRate] ++ formatFlags st) ++ [outputPath] := by
    simp [buildArgs]
  rw [this, List.getLast?_concat]

/-- Claim C9: given the probe subprocess exited 0, `analyzeAudio` rejects
with a `MetadataParseFailure`-class error exactly when the probe output is
not well-formed structured data or contains no stream of type `audio`; in
particular a well-formed document with no audio stream yields the typed
no-audio-stream rejection, never a crash. -/
theorem C9_metadata_parse_failure (fileSize : ℕ) (code : ℤ)
    (parsed : Option ProbeData) (stderr : String) (h : code = 0) :
    (isMetadataParseFailure (analyzeOnClose fileSize code parsed stderr) = true ↔
      parsed = none ∨ ∃ d, parsed = some d ∧ findAudioStream d = none) ∧
    (∀ d, parsed = some d → findAudioStream d = none →
      analyzeOnClose fileSize code parsed stderr = AnalyzeResult.noAudioStream) := by
  subst h
  cases parsed with
  | none => simp [analyzeOnClose, isMetadataParseFailure]
  | some d =>
    cases hf : findAudioStream d with
    | none => simp [analyzeOnClose, hf, isMetadataParseFailure]
    | some a => simp [analyzeOnClose, hf, isMetadataParseFailure]

/-- Witness for C9: exit code 0 and a well-formed probe document whose only
stream is a video stream. -/
theorem C9_metadata_parse_failure_witness :
    ((0 : ℤ) = 0) ∧
    ((isMetadataParseFailure
        (analyzeOnClose 2048 0 (some ⟨{}, [⟨"video", none, none, none, none⟩]⟩) "") = true ↔
      (some ⟨{}, [⟨"video", none, none, none, none⟩]⟩ : Option ProbeData) = none ∨
        ∃ d, (some ⟨{}, [⟨"video", none, none, none, none⟩]⟩ : Option ProbeData) = some d ∧
          findAudioStream d = none) ∧
     (∀ d, (some ⟨{}, [⟨"video", none, none, none, none⟩]⟩ : Option ProbeData) = some d →
        findAudioStream d = none →
        analyzeOnClose 2048 0 (some ⟨{}, [⟨"video", none, none, none, none⟩]⟩) "" =
          AnalyzeResult.noAudioStream)) :=
  ⟨rfl, C9_metadata_parse_failure 2048 0 (some ⟨{}, [⟨"video", none, none, none, none⟩]⟩) "" rfl⟩

/-- Claim C10: a stem whose volume is exactly 0 is rendered with the default
unity multiplier — its chain is byte-identical to the chain of the same
stem at volume 1, so `volume=1` appears rather than `volume=0`; and a stem
whose pan is exactly 0 gets no pan node at all. -/
theorem C10_zero_gain_unity (i : ℕ) (fp : String) (p v : ℚ) (e : List String) :
    stemFilter i ⟨fp, 0, p, e⟩ = stemFilter i ⟨fp, 1, p, e⟩ ∧
    stemFilter i ⟨fp, v, 0, e⟩ =
      "[" ++ toString i ++ ":a]volume=" ++ numStr (effVolume v)
        ++ "[a" ++ toString i ++ "]" ∧
    stemFilter i ⟨fp, 0, 0, e⟩ =
      "[" ++ toString i ++ ":a]volume=1[a" ++ toString i ++ "]" := by
  refine ⟨?_, ?_, ?_⟩
  · simp [stemFilter, effVolume]
  · simp [stemFilter, effPan, panSegment, string_append_empty]
  · simp [stemFilter, effVolume, effPan, panSegment, numStr_one,
      string_append_empty, String.append_assoc]

end AudioLabStudio
